import Mathlib

/-!
Shallow embedding of the Valo.Rant web service (`src/server.js`):
the credential codec, the register/login handlers, the discussion-post
handlers, the patch-notes handlers and the startup seeding rule.

Collections of the document store are modelled as Lean lists in storage
order: `insertOne` appends, `findOne` is `List.find?`, `deleteOne` erases
the first match (`List.eraseP`), `updateOne`/`findOneAndUpdate` rewrite
the first match.  The ambient clock (`Date.now()`, `new Date()`) is passed
to each handler as an explicit argument.  JavaScript string falsiness of a
request field (absent or `""`) is modelled by the empty string.
-/

/-! ## Credential codec

`server.js`:
  `const encodePassword = (pwd) => Buffer.from(pwd).toString('base64');`
  `const decodePassword = (encoded) => Buffer.from(encoded, 'base64').toString('utf-8');`

`Buffer.from(pwd)` is the UTF-8 byte sequence of the string; `toString('base64')`
is standard base64 with `=` padding; the decode direction inverts both layers. -/

def b64alphabet (n : Nat) : Char :=
  if n < 26 then Char.ofNat (65 + n)
  else if n < 52 then Char.ofNat (97 + (n - 26))
  else if n < 62 then Char.ofNat (48 + (n - 52))
  else if n = 62 then '+'
  else '/'

def b64inv (c : Char) : Nat :=
  if 65 ≤ c.toNat ∧ c.toNat ≤ 90 then c.toNat - 65
  else if 97 ≤ c.toNat ∧ c.toNat ≤ 122 then c.toNat - 97 + 26
  else if 48 ≤ c.toNat ∧ c.toNat ≤ 57 then c.toNat - 48 + 52
  else if c = '+' then 62
  else 63

/-- Base64-encode a byte sequence (bytes as `Nat < 256`), with `=` padding. -/
def b64encode : List Nat → List Char
  | [] => []
  | [b1] => [b64alphabet (b1 / 4), b64alphabet (b1 % 4 * 16), '=', '=']
  | [b1, b2] =>
      [b64alphabet (b1 / 4), b64alphabet (b1 % 4 * 16 + b2 / 16),
       b64alphabet (b2 % 16 * 4), '=']
  | b1 :: b2 :: b3 :: rest =>
      b64alphabet (b1 / 4) :: b64alphabet (b1 % 4 * 16 + b2 / 16) ::
      b64alphabet (b2 % 16 * 4 + b3 / 64) :: b64alphabet (b3 % 64) ::
      b64encode rest

/-- Base64-decode back to a byte sequence. -/
def b64decode : List Char → List Nat
  | c1 :: c2 :: c3 :: c4 :: rest =>
      if c3 = '=' then [b64inv c1 * 4 + b64inv c2 / 16]
      else if c4 = '=' then
        [b64inv c1 * 4 + b64inv c2 / 16, b64inv c2 % 16 * 16 + b64inv c3 / 4]
      else
        (b64inv c1 * 4 + b64inv c2 / 16) ::
        (b64inv c2 % 16 * 16 + b64inv c3 / 4) ::
        (b64inv c3 % 4 * 64 + b64inv c4) :: b64decode rest
  | [c1, c2, c3] =>
      [b64inv c1 * 4 + b64inv c2 / 16, b64inv c2 % 16 * 16 + b64inv c3 / 4]
  | [c1, c2] => [b64inv c1 * 4 + b64inv c2 / 16]
  | _ => []

/-- UTF-8 byte sequence of one Unicode scalar value. -/
def utf8EncodeChar (c : Char) : List Nat :=
  if c.toNat < 0x80 then [c.toNat]
  else if c.toNat < 0x800 then [0xC0 + c.toNat / 64, 0x80 + c.toNat % 64]
  else if c.toNat < 0x10000 then
    [0xE0 + c.toNat / 4096, 0x80 + c.toNat / 64 % 64, 0x80 + c.toNat % 64]
  else
    [0xF0 + c.toNat / 262144, 0x80 + c.toNat / 4096 % 64,
     0x80 + c.toNat / 64 % 64, 0x80 + c.toNat % 64]

def utf8Encode (l : List Char) : List Nat :=
  l.flatMap utf8EncodeChar

def contB (b : Nat) : Bool := 0x80 ≤ b && b < 0xC0

/-- Scalar value to character, replacement character on invalid input
(as Node's lossy `toString('utf-8')` does). -/
def uChar (n : Nat) : Char :=
  if n.isValidChar then Char.ofNat n else '�'

/-- UTF-8 decoding, total: malformed input yields replacement characters. -/
def utf8Decode : List Nat → List Char
  | [] => []
  | b :: bs =>
    if b < 0x80 then uChar b :: utf8Decode bs
    else if b < 0xC0 then '�' :: utf8Decode bs
    else if b < 0xE0 then
      if 1 ≤ bs.length ∧ contB (bs.getD 0 0) then
        uChar ((b - 0xC0) * 64 + (bs.getD 0 0 - 0x80)) :: utf8Decode (bs.drop 1)
      else '�' :: utf8Decode bs
    else if b < 0xF0 then
      if 2 ≤ bs.length ∧ contB (bs.getD 0 0) ∧ contB (bs.getD 1 0) then
        uChar ((b - 0xE0) * 4096 + (bs.getD 0 0 - 0x80) * 64 + (bs.getD 1 0 - 0x80)) ::
        utf8Decode (bs.drop 2)
      else '�' :: utf8Decode bs
    else
      if 3 ≤ bs.length ∧ contB (bs.getD 0 0) ∧ contB (bs.getD 1 0) ∧ contB (bs.getD 2 0) then
        uChar ((b - 0xF0) * 262144 + (bs.getD 0 0 - 0x80) * 4096 +
               (bs.getD 1 0 - 0x80) * 64 + (bs.getD 2 0 - 0x80)) ::
        utf8Decode (bs.drop 3)
      else '�' :: utf8Decode bs
termination_by l => l.length
decreasing_by all_goals simp <;> omega

/-- The `encodePassword` function of `server.js`. -/
def encodePassword (pwd : String) : String :=
  String.mk (b64encode (utf8Encode pwd.data))

/-- The `decodePassword` function of `server.js`. -/
def decodePassword (encoded : String) : String :=
  String.mk (utf8Decode (b64decode encoded.data))

/-! ## Data model and request handlers -/

/-- The whitespace class `\s` of JavaScript regular expressions. -/
def jsWs (c : Char) : Bool :=
  c.toNat ∈ [9, 10, 11, 12, 13, 32, 160, 5760, 8192, 8193, 8194, 8195, 8196,
             8197, 8198, 8199, 8200, 8201, 8202, 8232, 8233, 8239, 8287, 12288, 65279]

/-- A character admitted by the class `[^\s@]` of the registration email pattern. -/
def emailChar (c : Char) : Bool := !jsWs c && c != '@'

/-- The test `/^[^\s@]+@[^\s@]+\.[^\s@]+$/.test(email)` of the register handler.
Since `@` is excluded from every character class, a string matches exactly when a
maximal `[^\s@]+` prefix is non-empty and followed by `@`, the remainder consists
of `[^\s@]` characters, and the remainder contains a `.` that is neither its first
nor its last character. -/
def validEmail (s : String) : Bool :=
  match s.data.dropWhile emailChar with
  | '@' :: rest2 =>
      !(s.data.takeWhile emailChar).isEmpty && rest2.all emailChar &&
      (rest2.drop 1).dropLast.contains '.'
  | _ => false

/-- A JSON response: an error payload `{error}` with a status code, or a success
payload with a status code. -/
inductive ApiResponse (α : Type) where
  | failure (status : Nat) (error : String)
  | success (status : Nat) (payload : α)
deriving DecidableEq

structure User where
  username : String
  email : String
  password : String
  isAdmin : Bool
deriving DecidableEq

/-- The hardcoded `ADMIN` account of `server.js`. -/
def ADMIN : User :=
  { username := "Admin", email := "admin@gmail.com",
    password := encodePassword "access", isAdmin := true }

structure RegisterRequest where
  username : String
  email : String
  password : String
  confirm : String
deriving DecidableEq

/-- The success payload of registration: `{message, user: {username, email}}`. -/
structure RegisterOk where
  message : String
  username : String
  email : String
deriving DecidableEq

/-- The `POST /api/auth/register` handler.  A missing or empty request field is
modelled by `""` (both are falsy in JavaScript).  The `users` collection is a list
in storage order; `insertOne` appends. -/
def register (req : RegisterRequest) (users : List User) :
    ApiResponse RegisterOk × List User :=
  if req.username = "" ∨ req.email = "" ∨ req.password = "" ∨ req.confirm = "" then
    (.failure 400 "Please fill in all fields", users)
  else if req.username.length < 3 then
    (.failure 400 "Username must be at least 3 characters long", users)
  else if ¬ validEmail req.email then
    (.failure 400 "Please enter a valid email address", users)
  else if req.password ≠ req.confirm then
    (.failure 400 "Passwords do not match", users)
  else if req.password.length < 6 then
    (.failure 400 "Password must be at least 6 characters long", users)
  else
    match users.find? (fun u => u.email == req.email || u.username == req.username) with
    | some _ => (.failure 400 "This email or username is already registered", users)
    | none =>
      (.success 201 { message := "Registration successful!",
                      username := req.username, email := req.email },
       users ++ [{ username := req.username, email := req.email,
                   password := encodePassword req.password, isAdmin := false }])

structure LoginRequest where
  email : String
  password : String
deriving DecidableEq

/-- The success payload of login: `{message, user: {username, email, isAdmin}}`. -/
structure LoginOk where
  message : String
  username : String
  email : String
  isAdmin : Bool
deriving DecidableEq

/-- The `POST /api/auth/login` handler (read-only on the store). -/
def login (req : LoginRequest) (users : List User) : ApiResponse LoginOk :=
  if req.email = "" ∨ req.password = "" then
    .failure 400 "Please fill in all fields"
  else if req.email = ADMIN.email ∧ encodePassword req.password = ADMIN.password then
    .success 200 { message := "Admin login successful!", username := ADMIN.username,
                   email := ADMIN.email, isAdmin := true }
  else
    match users.find? (fun u => u.email == req.email) with
    | some user =>
      if decodePassword user.password = req.password then
        .success 200 { message := "Login successful!", username := user.username,
                       email := user.email, isAdmin := user.isAdmin }
      else .failure 401 "Invalid email or password"
    | none => .failure 401 "Invalid email or password"

structure Reply where
  id : Nat
  author : String
  content : String
  timestamp : String
deriving DecidableEq

structure Post where
  id : Nat
  author : String
  content : String
  image : Option String
  timestamp : String
  replies : List Reply
deriving DecidableEq

structure PostRequest where
  author : String
  content : String
  image : String
deriving DecidableEq

/-- The `POST /api/posts` handler.  `Date.now()` and the ISO timestamp are passed
in as `now` and `ts`. -/
def createPost (now : Nat) (ts : String) (req : PostRequest) (posts : List Post) :
    ApiResponse Post × List Post :=
  if req.content = "" then (.failure 400 "Post content is required", posts)
  else
    let post : Post :=
      { id := now,
        author := if req.author = "" then "Anonymous" else req.author,
        content := req.content,
        image := if req.image = "" then none else some req.image,
        timestamp := ts,
        replies := [] }
    (.success 201 post, posts ++ [post])

/-- The `DELETE /api/posts/:id` handler; `deleteOne` removes the first matching
document, `deletedCount` is zero exactly when no document matches. -/
def deletePost (isAdmin : Bool) (pid : Nat) (posts : List Post) :
    ApiResponse String × List Post :=
  if !isAdmin then (.failure 403 "Only administrators can delete posts", posts)
  else if posts.any (fun p => p.id == pid) then
    (.success 200 "Post deleted", posts.eraseP (fun p => p.id == pid))
  else (.failure 404 "Post not found", posts)

/-- The `updateOne` store operation: rewrite the first document matching the filter. -/
def updateFirst (pred : α → Bool) (f : α → α) : List α → List α
  | [] => []
  | x :: xs => if pred x then f x :: xs else x :: updateFirst pred f xs

/-- The `DELETE /api/posts/:postId/reply/:replyId` handler.  The `$pull` mutation
removes every reply matching the id from the matched post's array; `matchedCount`
depends only on the post filter. -/
def deleteReply (isAdmin : Bool) (pid rid : Nat) (posts : List Post) :
    ApiResponse String × List Post :=
  if !isAdmin then (.failure 403 "Only administrators can delete replies", posts)
  else if posts.any (fun p => p.id == pid) then
    (.success 200 "Reply deleted",
     updateFirst (fun p => p.id == pid)
       (fun p => { p with replies := p.replies.filter (fun r => !(r.id == rid)) }) posts)
  else (.failure 404 "Post not found", posts)

structure Patch where
  id : Nat
  version : String
  date : String
  text : String
deriving DecidableEq

/-- The default patch inserted by `connectDB` when the collection is empty. -/
def seedPatch : Patch :=
  { id := 1, version := "Patch 2.5.0", date := "December 15, 2024",
    text := "New Features\n- New Gun" }

/-- The seeding step of `connectDB`: insert the seed patch iff the collection
is empty at startup. -/
def initPatches (patches : List Patch) : List Patch :=
  if patches.length = 0 then patches ++ [seedPatch] else patches

structure PatchUpdateRequest where
  version : String
  date : String
  text : String
  isAdmin : Bool
deriving DecidableEq

/-- The `updateFields` object of the `PUT /api/patches/:id` handler: `$set` of
exactly the truthy fields among `version`, `date`, `text`. -/
def applyPatchUpdate (req : PatchUpdateRequest) (p : Patch) : Patch :=
  { id := p.id,
    version := if req.version ≠ "" then req.version else p.version,
    date := if req.date ≠ "" then req.date else p.date,
    text := if req.text ≠ "" then req.text else p.text }

/-- The `PUT /api/patches/:id` handler; `findOneAndUpdate` with
`returnDocument: 'after'` rewrites the first matching document and returns it.
When none of `version`, `date`, `text` is truthy, `updateFields` is `{}` and
MongoDB rejects the empty `$set` (FailedToParse) before any document is
matched; the handler's catch turns that into 500 "Server error updating patch"
with no store change. -/
def updatePatch (req : PatchUpdateRequest) (pid : Nat) (patches : List Patch) :
    ApiResponse Patch × List Patch :=
  if !req.isAdmin then (.failure 403 "Only administrators can edit patches", patches)
  else if req.version = "" ∧ req.date = "" ∧ req.text = "" then
    (.failure 500 "Server error updating patch", patches)
  else
    match patches.find? (fun p => p.id == pid) with
    | none => (.failure 404 "Patch not found", patches)
    | some p =>
      (.success 200 (applyPatchUpdate req p),
       updateFirst (fun q => q.id == pid) (applyPatchUpdate req) patches)

/-- The `DELETE /api/patches/:id` handler. -/
def deletePatch (isAdmin : Bool) (pid : Nat) (patches : List Patch) :
    ApiResponse String × List Patch :=
  if !isAdmin then (.failure 403 "Only administrators can delete patches", patches)
  else if patches.any (fun p => p.id == pid) then
    (.success 200 "Patch deleted", patches.eraseP (fun p => p.id == pid))
  else (.failure 404 "Patch not found", patches)

/-- The `GET /api/patches` handler. -/
def listPatches (patches : List Patch) : ApiResponse (List Patch) :=
  .success 200 patches

theorem b64inv_alphabet : ∀ n < 64, b64inv (b64alphabet n) = n := by decide

theorem b64alphabet_ne_pad : ∀ n < 64, b64alphabet n ≠ '=' := by decide

theorem b64_roundtrip :
    ∀ bs : List Nat, (∀ b ∈ bs, b < 256) → b64decode (b64encode bs) = bs := by
  intro bs
  induction bs using b64encode.induct with
  | case1 =>
    intro _
    rfl
  | case2 b1 =>
    intro h
    have hb1 : b1 < 256 := h b1 (by simp)
    have e1 := b64inv_alphabet (b1 / 4) (by omega)
    have e2 := b64inv_alphabet (b1 % 4 * 16) (by omega)
    simp [b64encode, b64decode, e1, e2]
    all_goals omega
  | case3 b1 b2 =>
    intro h
    have hb1 : b1 < 256 := h b1 (by simp)
    have hb2 : b2 < 256 := h b2 (by simp)
    have e1 := b64inv_alphabet (b1 / 4) (by omega)
    have e2 := b64inv_alphabet (b1 % 4 * 16 + b2 / 16) (by omega)
    have e3 := b64inv_alphabet (b2 % 16 * 4) (by omega)
    have ne3 := b64alphabet_ne_pad (b2 % 16 * 4) (by omega)
    simp [b64encode, b64decode, e1, e2, e3, ne3]
    all_goals omega
  | case4 b1 b2 b3 rest ih =>
    intro h
    have hb1 : b1 < 256 := h b1 (by simp)
    have hb2 : b2 < 256 := h b2 (by simp)
    have hb3 : b3 < 256 := h b3 (by simp)
    have e1 := b64inv_alphabet (b1 / 4) (by omega)
    have e2 := b64inv_alphabet (b1 % 4 * 16 + b2 / 16) (by omega)
    have e3 := b64inv_alphabet (b2 % 16 * 4 + b3 / 64) (by omega)
    have e4 := b64inv_alphabet (b3 % 64) (by omega)
    have ne3 := b64alphabet_ne_pad (b2 % 16 * 4 + b3 / 64) (by omega)
    have ne4 := b64alphabet_ne_pad (b3 % 64) (by omega)
    have htail := ih (fun b hb => h b (by simp [hb]))
    simp [b64encode, b64decode, e1, e2, e3, e4, ne3, ne4, htail]
    all_goals omega

theorem uChar_toNat (c : Char) : uChar c.toNat = c := by
  have hval : Nat.isValidChar c.toNat := c.valid
  simp [uChar, hval, Char.ofNat_toNat]

theorem utf8EncodeChar_lt (c : Char) : ∀ b ∈ utf8EncodeChar c, b < 256 := by
  have hv : c.toNat < 0xd800 ∨ (0xdfff < c.toNat ∧ c.toNat < 0x110000) := c.valid
  intro b hb
  simp only [utf8EncodeChar] at hb
  split_ifs at hb <;> simp at hb <;> omega

theorem utf8Encode_lt (l : List Char) : ∀ b ∈ utf8Encode l, b < 256 := by
  intro b hb
  simp only [utf8Encode, List.mem_flatMap] at hb
  obtain ⟨c, _, hc⟩ := hb
  exact utf8EncodeChar_lt c b hc

theorem utf8Decode_cons1 (b : Nat) (bs : List Nat) (h : b < 0x80) :
    utf8Decode (b :: bs) = uChar b :: utf8Decode bs := by
  simp [utf8Decode, h]

theorem utf8Decode_cons2 (b b2 : Nat) (bs : List Nat)
    (h1 : 0xC0 ≤ b) (h2 : b < 0xE0) (hc : contB b2 = true) :
    utf8Decode (b :: b2 :: bs) = uChar ((b - 0xC0) * 64 + (b2 - 0x80)) :: utf8Decode bs := by
  have hn1 : ¬ b < 0x80 := by omega
  have hn2 : ¬ b < 0xC0 := by omega
  simp [utf8Decode, hn1, hn2, h2, hc]

theorem utf8Decode_cons3 (b b2 b3 : Nat) (bs : List Nat)
    (h1 : 0xE0 ≤ b) (h2 : b < 0xF0) (hc2 : contB b2 = true) (hc3 : contB b3 = true) :
    utf8Decode (b :: b2 :: b3 :: bs) =
      uChar ((b - 0xE0) * 4096 + (b2 - 0x80) * 64 + (b3 - 0x80)) :: utf8Decode bs := by
  have hn1 : ¬ b < 0x80 := by omega
  have hn2 : ¬ b < 0xC0 := by omega
  have hn3 : ¬ b < 0xE0 := by omega
  simp [utf8Decode, hn1, hn2, hn3, h2, hc2, hc3]

theorem utf8Decode_cons4 (b b2 b3 b4 : Nat) (bs : List Nat)
    (h1 : 0xF0 ≤ b) (hc2 : contB b2 = true) (hc3 : contB b3 = true) (hc4 : contB b4 = true) :
    utf8Decode (b :: b2 :: b3 :: b4 :: bs) =
      uChar ((b - 0xF0) * 262144 + (b2 - 0x80) * 4096 + (b3 - 0x80) * 64 + (b4 - 0x80)) ::
        utf8Decode bs := by
  have hn1 : ¬ b < 0x80 := by omega
  have hn2 : ¬ b < 0xC0 := by omega
  have hn3 : ¬ b < 0xE0 := by omega
  have hn4 : ¬ b < 0xF0 := by omega
  simp [utf8Decode, hn1, hn2, hn3, hn4, hc2, hc3, hc4]

theorem contB_of_mod (n : Nat) : contB (0x80 + n % 64) = true := by
  simp only [contB, Bool.and_eq_true, decide_eq_true_eq]
  omega

theorem utf8Decode_encodeChar (c : Char) (rest : List Nat) :
    utf8Decode (utf8EncodeChar c ++ rest) = c :: utf8Decode rest := by
  have hv : c.toNat < 0xd800 ∨ (0xdfff < c.toNat ∧ c.toNat < 0x110000) := c.valid
  by_cases h1 : c.toNat < 0x80
  · rw [show utf8EncodeChar c = [c.toNat] from by simp [utf8EncodeChar, h1],
       List.singleton_append, utf8Decode_cons1 _ _ h1, uChar_toNat]
  · by_cases h2 : c.toNat < 0x800
    · rw [show utf8EncodeChar c = [0xC0 + c.toNat / 64, 0x80 + c.toNat % 64] from by
          simp [utf8EncodeChar, h1, h2]]
      rw [show ([0xC0 + c.toNat / 64, 0x80 + c.toNat % 64] : List Nat) ++ rest =
          (0xC0 + c.toNat / 64) :: (0x80 + c.toNat % 64) :: rest from rfl]
      rw [utf8Decode_cons2 _ _ _ (by omega) (by omega) (contB_of_mod c.toNat)]
      rw [show (0xC0 + c.toNat / 64 - 0xC0) * 64 + (0x80 + c.toNat % 64 - 0x80) = c.toNat
          from by omega]
      rw [uChar_toNat c]
    · by_cases h3 : c.toNat < 0x10000
      · rw [show utf8EncodeChar c =
            [0xE0 + c.toNat / 4096, 0x80 + c.toNat / 64 % 64, 0x80 + c.toNat % 64] from by
            simp [utf8EncodeChar, h1, h2, h3]]
        rw [show ([0xE0 + c.toNat / 4096, 0x80 + c.toNat / 64 % 64, 0x80 + c.toNat % 64] :
            List Nat) ++ rest =
            (0xE0 + c.toNat / 4096) :: (0x80 + c.toNat / 64 % 64) ::
            (0x80 + c.toNat % 64) :: rest from rfl]
        rw [utf8Decode_cons3 _ _ _ _ (by omega) (by omega)
            (contB_of_mod (c.toNat / 64)) (contB_of_mod c.toNat)]
        rw [show (0xE0 + c.toNat / 4096 - 0xE0) * 4096 +
            (0x80 + c.toNat / 64 % 64 - 0x80) * 64 + (0x80 + c.toNat % 64 - 0x80) = c.toNat
            from by omega]
        rw [uChar_toNat c]
      · rw [show utf8EncodeChar c =
            [0xF0 + c.toNat / 262144, 0x80 + c.toNat / 4096 % 64,
             0x80 + c.toNat / 64 % 64, 0x80 + c.toNat % 64] from by
            simp [utf8EncodeChar, h1, h2, h3]]
        rw [show ([0xF0 + c.toNat / 262144, 0x80 + c.toNat / 4096 % 64,
            0x80 + c.toNat / 64 % 64, 0x80 + c.toNat % 64] : List Nat) ++ rest =
            (0xF0 + c.toNat / 262144) :: (0x80 + c.toNat / 4096 % 64) ::
            (0x80 + c.toNat / 64 % 64) :: (0x80 + c.toNat % 64) :: rest from rfl]
        rw [utf8Decode_cons4 _ _ _ _ _ (by omega)
            (contB_of_mod (c.toNat / 4096)) (contB_of_mod (c.toNat / 64))
            (contB_of_mod c.toNat)]
        rw [show (0xF0 + c.toNat / 262144 - 0xF0) * 262144 +
            (0x80 + c.toNat / 4096 % 64 - 0x80) * 4096 +
            (0x80 + c.toNat / 64 % 64 - 0x80) * 64 + (0x80 + c.toNat % 64 - 0x80) = c.toNat
            from by omega]
        rw [uChar_toNat c]

theorem utf8_roundtrip (l : List Char) : utf8Decode (utf8Encode l) = l := by
  induction l with
  | nil => simp [utf8Encode, utf8Decode]
  | cons c cs ih =>
    rw [show utf8Encode (c :: cs) = utf8EncodeChar c ++ utf8Encode cs from by
        simp [utf8Encode, List.flatMap_cons]]
    rw [utf8Decode_encodeChar, ih]

/-! ## Claim theorems -/

/-- Claim C3: for every string `s`, `decodePassword (encodePassword s) = s`:
the credential encoding used to store passwords and its inverse used at login
form an exact round-trip. -/
theorem c3_codec_roundtrip (s : String) : decodePassword (encodePassword s) = s := by
  cases s with
  | mk data =>
    show String.mk (utf8Decode (b64decode (b64encode (utf8Encode data)))) = String.mk data
    rw [b64_roundtrip _ (utf8Encode_lt data), utf8_roundtrip]

/-- Claim C2 counterexample: the empty password has an encoding different from
the fixed admin credential and matches no stored user (the store is empty), yet
login with the admin email and the empty password returns 400
"Please fill in all fields", not the 401 response the claim asserts. -/
theorem c2_counterexample :
    encodePassword "" ≠ ADMIN.password ∧
    login { email := ADMIN.email, password := "" } [] =
      .failure 400 "Please fill in all fields" := by
  constructor
  · decide
  · decide

/-- Claim C2 (amended: the wrong password must be non-empty, since an empty
password is caught by the presence check and yields 400 before any credential
comparison): for every store, login with the fixed admin email and password
"access" succeeds as admin without consulting the store, and login with the
fixed admin email and any non-empty password whose encoding differs from the
fixed admin encoded credential and which matches no stored user returns 401
"Invalid email or password". -/
theorem c2_admin_login (users : List User) (pwd : String) :
    login { email := ADMIN.email, password := "access" } users =
      .success 200 { message := "Admin login successful!", username := "Admin",
                     email := "admin@gmail.com", isAdmin := true } ∧
    (pwd ≠ "" → encodePassword pwd ≠ ADMIN.password →
      (∀ u ∈ users, u.email = ADMIN.email → decodePassword u.password ≠ pwd) →
      login { email := ADMIN.email, password := pwd } users =
        .failure 401 "Invalid email or password") := by
  constructor
  · unfold login
    rw [if_neg (by decide), if_pos ⟨rfl, rfl⟩]
    rfl
  · intro hne hcode hstore
    unfold login
    have h1 : ¬(({ email := ADMIN.email, password := pwd } : LoginRequest).email = "" ∨
        ({ email := ADMIN.email, password := pwd } : LoginRequest).password = "") := by
      rintro (h | h)
      · exact absurd (show ADMIN.email = "" from h) (by decide)
      · exact hne h
    have h2 : ¬(({ email := ADMIN.email, password := pwd } : LoginRequest).email = ADMIN.email ∧
        encodePassword ({ email := ADMIN.email, password := pwd } : LoginRequest).password =
          ADMIN.password) := by
      rintro ⟨-, h⟩
      exact hcode h
    rw [if_neg h1, if_neg h2]
    cases hfind : users.find?
        (fun u => u.email == ({ email := ADMIN.email, password := pwd } : LoginRequest).email) with
    | none => rfl
    | some user =>
      have hu : user.email = ADMIN.email := by
        have := List.find?_some hfind
        simpa using this
      have hmem : user ∈ users := List.mem_of_find?_eq_some hfind
      exact if_neg (hstore user hmem hu)

/-- Claim C2 amended-theorem witness at concrete inputs. -/
theorem c2_admin_login_witness :
    login { email := "admin@gmail.com", password := "access" } [] =
      .success 200 { message := "Admin login successful!", username := "Admin",
                     email := "admin@gmail.com", isAdmin := true } ∧
    login { email := "admin@gmail.com", password := "wrongpw" } [] =
      .failure 401 "Invalid email or password" := by
  constructor
  · exact (c2_admin_login [] "wrongpw").1
  · exact (c2_admin_login [] "wrongpw").2 (by decide) (by decide) (by simp)

/-- Claim C1: the register operation applies its validation checks in exactly the
stated order with the first failure winning, each failure returning 400 with its
descriptive message and leaving the store untouched; on success it persists
exactly one User with `isAdmin = false` and the encoded password and responds 201
with `{username, email}` (the response type carries no password field). -/
theorem c1_register_spec (req : RegisterRequest) (users : List User) :
    ((req.username = "" ∨ req.email = "" ∨ req.password = "" ∨ req.confirm = "") →
      register req users = (.failure 400 "Please fill in all fields", users)) ∧
    (¬(req.username = "" ∨ req.email = "" ∨ req.password = "" ∨ req.confirm = "") →
      req.username.length < 3 →
      register req users =
        (.failure 400 "Username must be at least 3 characters long", users)) ∧
    (¬(req.username = "" ∨ req.email = "" ∨ req.password = "" ∨ req.confirm = "") →
      ¬ req.username.length < 3 →
      validEmail req.email = false →
      register req users = (.failure 400 "Please enter a valid email address", users)) ∧
    (¬(req.username = "" ∨ req.email = "" ∨ req.password = "" ∨ req.confirm = "") →
      ¬ req.username.length < 3 →
      validEmail req.email = true →
      req.password ≠ req.confirm →
      register req users = (.failure 400 "Passwords do not match", users)) ∧
    (¬(req.username = "" ∨ req.email = "" ∨ req.password = "" ∨ req.confirm = "") →
      ¬ req.username.length < 3 →
      validEmail req.email = true →
      req.password = req.confirm →
      req.password.length < 6 →
      register req users =
        (.failure 400 "Password must be at least 6 characters long", users)) ∧
    (¬(req.username = "" ∨ req.email = "" ∨ req.password = "" ∨ req.confirm = "") →
      ¬ req.username.length < 3 →
      validEmail req.email = true →
      req.password = req.confirm →
      ¬ req.password.length < 6 →
      (∃ u ∈ users, u.email = req.email ∨ u.username = req.username) →
      register req users =
        (.failure 400 "This email or username is already registered", users)) ∧
    (¬(req.username = "" ∨ req.email = "" ∨ req.password = "" ∨ req.confirm = "") →
      ¬ req.username.length < 3 →
      validEmail req.email = true →
      req.password = req.confirm →
      ¬ req.password.length < 6 →
      (∀ u ∈ users, u.email ≠ req.email ∧ u.username ≠ req.username) →
      register req users =
        (.success 201 { message := "Registration successful!",
                        username := req.username, email := req.email },
         users ++ [{ username := req.username, email := req.email,
                     password := encodePassword req.password, isAdmin := false }])) := by
  refine ⟨?_, ?_, ?_, ?_, ?_, ?_, ?_⟩
  · intro h1
    unfold register
    rw [if_pos h1]
  · intro h1 h2
    unfold register
    rw [if_neg h1, if_pos h2]
  · intro h1 h2 h3
    unfold register
    rw [if_neg h1, if_neg h2, if_pos (by simp [h3])]
  · intro h1 h2 h3 h4
    unfold register
    rw [if_neg h1, if_neg h2, if_neg (by simp [h3]), if_pos h4]
  · intro h1 h2 h3 h4 h5
    unfold register
    rw [if_neg h1, if_neg h2, if_neg (by simp [h3]), if_neg (not_not_intro h4), if_pos h5]
  · intro h1 h2 h3 h4 h5 hex
    unfold register
    rw [if_neg h1, if_neg h2, if_neg (by simp [h3]), if_neg (not_not_intro h4), if_neg h5]
    obtain ⟨u, hu, hor⟩ := hex
    have hsome : (users.find?
        (fun u => u.email == req.email || u.username == req.username)).isSome := by
      apply List.find?_isSome.mpr
      refine ⟨u, hu, ?_⟩
      rcases hor with h | h <;> simp [h]
    cases hfind : users.find?
        (fun u => u.email == req.email || u.username == req.username) with
    | none => rw [hfind] at hsome; simp at hsome
    | some v => rfl
  · intro h1 h2 h3 h4 h5 hall
    unfold register
    rw [if_neg h1, if_neg h2, if_neg (by simp [h3]), if_neg (not_not_intro h4), if_neg h5]
    have hnone : users.find?
        (fun u => u.email == req.email || u.username == req.username) = none := by
      apply List.find?_eq_none.mpr
      intro u hu
      have := hall u hu
      simp [this.1, this.2]
    rw [hnone]

/-- Claim C1 theorem witness: the success branch at a concrete registration. -/
theorem c1_register_spec_witness :
    register { username := "alice", email := "alice@example.com",
               password := "secret1", confirm := "secret1" } [] =
      (.success 201 { message := "Registration successful!", username := "alice",
                      email := "alice@example.com" },
       [{ username := "alice", email := "alice@example.com",
          password := encodePassword "secret1", isAdmin := false }]) :=
  (c1_register_spec
      { username := "alice", email := "alice@example.com",
        password := "secret1", confirm := "secret1" } []).2.2.2.2.2.2
    (by decide) (by decide) (by decide) (by decide) (by decide) (by simp)

/-- If the first match of `pred` is fixed by `f`, `updateFirst` is the identity. -/
theorem updateFirst_eq_self (pred : α → Bool) (f : α → α) (l : List α) (p : α)
    (hfind : l.find? pred = some p) (hfp : f p = p) : updateFirst pred f l = l := by
  induction l with
  | nil => simp at hfind
  | cons x xs ih =>
    by_cases hx : pred x
    · have hpx : p = x := by
        rw [List.find?_cons_of_pos _ hx] at hfind
        exact (Option.some.inj hfind).symm
      subst hpx
      simp [updateFirst, hx, hfp]
    · have hxs : xs.find? pred = some p := by
        rwa [List.find?_cons_of_neg _ hx] at hfind
      simp [updateFirst, hx, ih hxs]

/-- Erasing the first match from a list with at most one match leaves no match. -/
theorem countP_eraseP (pred : α → Bool) (l : List α) (h : l.countP pred ≤ 1) :
    (l.eraseP pred).countP pred = 0 := by
  induction l with
  | nil => simp
  | cons x xs ih =>
    rw [List.countP_cons] at h
    by_cases hx : pred x
    · have h1 : List.countP pred xs = 0 := by
        rw [if_pos hx] at h
        omega
      rw [List.eraseP_cons_of_pos hx]
      exact h1
    · have h1 : List.countP pred xs ≤ 1 := by
        rw [if_neg hx] at h
        omega
      rw [List.eraseP_cons_of_neg hx, List.countP_cons, if_neg hx]
      have h2 := ih h1
      omega

/-- Claim C4 counterexample: at an admin update that supplies none of version,
date, text as truthy and whose id matches the stored Patch, the claim predicts
200 with the (here unchanged) post-mutation document, but the empty `$set` is
rejected by the store and the handler returns 500 "Server error updating
patch" with the store unchanged. -/
theorem c4_counterexample :
    updatePatch { version := "", date := "", text := "", isAdmin := true } 1
        [{ id := 1, version := "1.0", date := "d", text := "t" }] =
      (.failure 500 "Server error updating patch",
       [{ id := 1, version := "1.0", date := "d", text := "t" }]) ∧
    updatePatch { version := "", date := "", text := "", isAdmin := true } 1
        [{ id := 1, version := "1.0", date := "d", text := "t" }] ≠
      (.success 200 { id := 1, version := "1.0", date := "d", text := "t" },
       [{ id := 1, version := "1.0", date := "d", text := "t" }]) := by
  constructor <;> decide

/-- Claim C4 (amended: restricted to requests supplying at least one truthy
field among version, date, text, since an all-falsy request makes the store
reject the empty `$set` and the handler answer 500): with a truthy admin flag
and at least one truthy field, the patch update returns 404 and leaves the
store unchanged when no Patch matches the id; when a Patch matches, it rewrites
the first match and returns the post-mutation document with 200, overwriting
exactly the supplied truthy fields and keeping every absent/falsy field (and
the id) unchanged. -/
theorem c4_patch_update (req : PatchUpdateRequest) (pid : Nat) (patches : List Patch)
    (hAdmin : req.isAdmin = true)
    (hFields : req.version ≠ "" ∨ req.date ≠ "" ∨ req.text ≠ "") :
    ((∀ p ∈ patches, p.id ≠ pid) →
      updatePatch req pid patches = (.failure 404 "Patch not found", patches)) ∧
    (∀ p, patches.find? (fun q => q.id == pid) = some p →
      ∃ p1,
        updatePatch req pid patches =
          (.success 200 p1,
           updateFirst (fun q => q.id == pid) (applyPatchUpdate req) patches) ∧
        p1.id = p.id ∧
        p1.version = (if req.version = "" then p.version else req.version) ∧
        p1.date = (if req.date = "" then p.date else req.date) ∧
        p1.text = (if req.text = "" then p.text else req.text)) := by
  have hne : ¬(req.version = "" ∧ req.date = "" ∧ req.text = "") := by tauto
  constructor
  · intro hnone
    unfold updatePatch
    rw [if_neg (by simp [hAdmin]), if_neg hne]
    have hfind : patches.find? (fun q => q.id == pid) = none := by
      apply List.find?_eq_none.mpr
      intro q hq
      simpa using hnone q hq
    rw [hfind]
  · intro p hfind
    unfold updatePatch
    rw [if_neg (by simp [hAdmin]), if_neg hne, hfind]
    refine ⟨applyPatchUpdate req p, rfl, rfl, ?_, ?_, ?_⟩
    · by_cases h : req.version = "" <;> simp [applyPatchUpdate, h]
    · by_cases h : req.date = "" <;> simp [applyPatchUpdate, h]
    · by_cases h : req.text = "" <;> simp [applyPatchUpdate, h]

/-- Claim C4 witness: the claim's concrete example, updating
`{version:"1.0", date:"d", text:"t"}` with only `{version:"2.0", isAdmin:true}`. -/
theorem c4_patch_update_witness :
    updatePatch { version := "2.0", date := "", text := "", isAdmin := true } 1
        [{ id := 1, version := "1.0", date := "d", text := "t" }] =
      (.success 200 { id := 1, version := "2.0", date := "d", text := "t" },
       [{ id := 1, version := "2.0", date := "d", text := "t" }]) := by
  obtain ⟨p1, heq, hid, hv, hd, ht⟩ :=
    (c4_patch_update { version := "2.0", date := "", text := "", isAdmin := true } 1
        [{ id := 1, version := "1.0", date := "d", text := "t" }] rfl
        (Or.inl (by decide))).2
      { id := 1, version := "1.0", date := "d", text := "t" } (by decide)
  have hp : p1 = { id := 1, version := "2.0", date := "d", text := "t" } := by
    cases p1
    simp_all
  rw [hp] at heq
  rw [heq]
  decide

/-- Claim C5: with a truthy admin flag, reply deletion returns 404 exactly when no
Post matches the post id (regardless of the reply id), and when a Post matches
but contains no Reply with the given reply id it returns 200 "Reply deleted"
while removing nothing (the store is unchanged). -/
theorem c5_delete_reply (pid rid : Nat) (posts : List Post) :
    ((∀ p ∈ posts, p.id ≠ pid) →
      deleteReply true pid rid posts = (.failure 404 "Post not found", posts)) ∧
    (∀ p, posts.find? (fun q => q.id == pid) = some p →
      (∀ r ∈ p.replies, r.id ≠ rid) →
      deleteReply true pid rid posts = (.success 200 "Reply deleted", posts)) := by
  constructor
  · intro hnone
    unfold deleteReply
    have hany : posts.any (fun p => p.id == pid) = false := by
      rw [List.any_eq_false]
      intro q hq
      simpa using hnone q hq
    rw [if_neg (by simp), if_neg (by simp [hany])]
  · intro p hfind hrep
    unfold deleteReply
    have hmem : p ∈ posts := List.mem_of_find?_eq_some hfind
    have hpred := List.find?_some hfind
    have hany : posts.any (fun q => q.id == pid) = true := by
      rw [List.any_eq_true]
      exact ⟨p, hmem, hpred⟩
    rw [if_neg (by simp), if_pos hany]
    have hfp : (fun q : Post =>
        { q with replies := q.replies.filter (fun r => !(r.id == rid)) }) p = p := by
      have hfilter : p.replies.filter (fun r => !(r.id == rid)) = p.replies := by
        apply List.filter_eq_self.mpr
        intro r hr
        simpa using hrep r hr
      simp [hfilter]
    rw [updateFirst_eq_self _ _ _ _ hfind hfp]

/-- Claim C5 witness: a store with one post (id 5) holding one reply (id 9);
deleting reply 7 of missing post 6 gives 404, deleting missing reply 7 of
existing post 5 gives 200 "Reply deleted" with the store unchanged. -/
theorem c5_delete_reply_witness :
    deleteReply true 6 7 [{ id := 5, author := "a", content := "c", image := none,
                            timestamp := "ts",
                            replies := [{ id := 9, author := "b", content := "r",
                                          timestamp := "ts2" }] }] =
      (.failure 404 "Post not found",
       [{ id := 5, author := "a", content := "c", image := none, timestamp := "ts",
          replies := [{ id := 9, author := "b", content := "r", timestamp := "ts2" }] }]) ∧
    deleteReply true 5 7 [{ id := 5, author := "a", content := "c", image := none,
                            timestamp := "ts",
                            replies := [{ id := 9, author := "b", content := "r",
                                          timestamp := "ts2" }] }] =
      (.success 200 "Reply deleted",
       [{ id := 5, author := "a", content := "c", image := none, timestamp := "ts",
          replies := [{ id := 9, author := "b", content := "r", timestamp := "ts2" }] }]) := by
  constructor
  · exact (c5_delete_reply 6 7 _).1 (by decide)
  · exact (c5_delete_reply 5 7 _).2
      { id := 5, author := "a", content := "c", image := none, timestamp := "ts",
        replies := [{ id := 9, author := "b", content := "r", timestamp := "ts2" }] }
      (by decide) (by decide)

/-- Claim C7: deleting a post without the admin flag returns 403 and leaves the
store unchanged; with the admin flag it removes the first Post with the given id
and returns 200, or 404 when no document matched; and (under the id-uniqueness
invariant of the collection) a second deletion of the same id returns 404. -/
theorem c7_delete_post (pid : Nat) (posts : List Post) :
    (deletePost false pid posts =
      (.failure 403 "Only administrators can delete posts", posts)) ∧
    (posts.any (fun p => p.id == pid) = true →
      deletePost true pid posts =
        (.success 200 "Post deleted", posts.eraseP (fun p => p.id == pid))) ∧
    (posts.any (fun p => p.id == pid) = false →
      deletePost true pid posts = (.failure 404 "Post not found", posts)) ∧
    (posts.countP (fun p => p.id == pid) ≤ 1 →
      (deletePost true pid (deletePost true pid posts).2).1 =
        .failure 404 "Post not found") := by
  refine ⟨?_, ?_, ?_, ?_⟩
  · unfold deletePost
    rw [if_pos (show (!false) = true from rfl)]
  · intro h
    unfold deletePost
    rw [if_neg (by simp), if_pos h]
  · intro h
    unfold deletePost
    rw [if_neg (by simp), if_neg (by simp [h])]
  · intro h
    by_cases hany : posts.any (fun p => p.id == pid) = true
    · have h2 : (deletePost true pid posts).2 = posts.eraseP (fun p => p.id == pid) := by
        unfold deletePost
        rw [if_neg (by simp), if_pos hany]
      rw [h2]
      have hz := countP_eraseP (fun p : Post => p.id == pid) posts h
      have hany2 : (posts.eraseP (fun p => p.id == pid)).any (fun p => p.id == pid) = false := by
        rw [List.any_eq_false]
        intro x hx
        exact (List.countP_eq_zero.mp hz) x hx
      unfold deletePost
      rw [if_neg (by simp), if_neg (by simp [hany2])]
    · have hany' : posts.any (fun p => p.id == pid) = false :=
        Bool.eq_false_iff.mpr hany
      have h2 : (deletePost true pid posts).2 = posts := by
        unfold deletePost
        rw [if_neg (by simp), if_neg (by simp [hany'])]
      rw [h2]
      unfold deletePost
      rw [if_neg (by simp), if_neg (by simp [hany'])]

/-- Claim C7 witness: deleting post 5 as non-admin is 403; as admin it succeeds,
and the second deletion returns 404. -/
theorem c7_delete_post_witness :
    deletePost false 5 [{ id := 5, author := "a", content := "c", image := none,
                          timestamp := "ts", replies := [] }] =
      (.failure 403 "Only administrators can delete posts",
       [{ id := 5, author := "a", content := "c", image := none, timestamp := "ts",
          replies := [] }]) ∧
    deletePost true 5 [{ id := 5, author := "a", content := "c", image := none,
                         timestamp := "ts", replies := [] }] =
      (.success 200 "Post deleted", []) ∧
    (deletePost true 5 (deletePost true 5
        [{ id := 5, author := "a", content := "c", image := none, timestamp := "ts",
           replies := [] }]).2).1 = .failure 404 "Post not found" := by
  refine ⟨?_, ?_, ?_⟩
  · exact (c7_delete_post 5 _).1
  · have h := (c7_delete_post 5 [({ id := 5, author := "a", content := "c", image := none, timestamp := "ts", replies := [] } : Post)]).2.1 (by decide)
    rw [h]
    decide
  · exact (c7_delete_post 5 _).2.2.2 (by decide)

/-- Claim C6: creating a post with empty (or absent) content returns 400 and
inserts nothing; with non-empty content it returns 201 with a created Post whose
replies are the empty sequence, whose author defaults to "Anonymous" when absent,
and whose id is the current time in milliseconds, appending exactly that Post. -/
theorem c6_create_post (now : Nat) (ts : String) (req : PostRequest) (posts : List Post) :
    (req.content = "" →
      createPost now ts req posts = (.failure 400 "Post content is required", posts)) ∧
    (req.content ≠ "" →
      ∃ post : Post,
        createPost now ts req posts = (.success 201 post, posts ++ [post]) ∧
        post.replies = [] ∧ post.id = now ∧
        (req.author = "" → post.author = "Anonymous") ∧
        (req.author ≠ "" → post.author = req.author)) := by
  constructor
  · intro h
    unfold createPost
    rw [if_pos h]
  · intro h
    unfold createPost
    rw [if_neg h]
    refine ⟨_, rfl, rfl, rfl, ?_, ?_⟩
    · intro ha
      simp [ha]
    · intro ha
      simp [ha]

/-- Claim C6 witness: the empty-content branch at a concrete request. -/
theorem c6_create_post_witness :
    createPost 42 "T" { author := "", content := "", image := "" } [] =
      (.failure 400 "Post content is required", []) :=
  (c6_create_post 42 "T" { author := "", content := "", image := "" } []).1 rfl

/-- Claim C8: at startup the seed Patch (id 1, fixed version/date/text) is
inserted iff the patches collection is empty, as the single document; a
non-empty collection is left untouched; and the per-request patch operations do
not re-seed: on an empty collection, update and delete leave it empty and list
returns it as-is. -/
theorem c8_seed (patches : List Patch) (req : PatchUpdateRequest) (pid : Nat) :
    (patches = [] →
      initPatches patches =
        [{ id := 1, version := "Patch 2.5.0", date := "December 15, 2024",
           text := "New Features\n- New Gun" }]) ∧
    (patches ≠ [] → initPatches patches = patches) ∧
    (req.isAdmin = true → (updatePatch req pid []).2 = []) ∧
    (deletePatch true pid []).2 = [] ∧
    listPatches [] = .success 200 [] := by
  refine ⟨?_, ?_, ?_, ?_, rfl⟩
  · intro h
    subst h
    rfl
  · intro h
    unfold initPatches
    rw [if_neg (by simpa [List.length_eq_zero] using h)]
  · intro hAdmin
    unfold updatePatch
    rw [if_neg (by simp [hAdmin])]
    by_cases hf : req.version = "" ∧ req.date = "" ∧ req.text = ""
    · rw [if_pos hf]
    · rw [if_neg hf]
      rfl
  · rfl

/-- Claim C8 witness: seeding on the empty collection, no seeding on a non-empty
collection, and no re-seeding by a request operation. -/
theorem c8_seed_witness :
    initPatches [] = [{ id := 1, version := "Patch 2.5.0", date := "December 15, 2024",
                        text := "New Features\n- New Gun" }] ∧
    initPatches [seedPatch] = [seedPatch] ∧
    (updatePatch { version := "v", date := "", text := "", isAdmin := true } 3 []).2 = [] := by
  refine ⟨?_, ?_, ?_⟩
  · exact (c8_seed [] { version := "", date := "", text := "", isAdmin := true } 0).1 rfl
  · exact (c8_seed [seedPatch] { version := "", date := "", text := "", isAdmin := true } 0).2.1
      (by simp [seedPatch])
  · exact (c8_seed [] { version := "v", date := "", text := "", isAdmin := true } 3).2.2.1 rfl

/-- Claim C9: a successful post creation whose image field is absent or falsy
stores and returns a Post whose image is explicitly null (`none`), never an
absent field. -/
theorem c9_image_default (now : Nat) (ts : String) (req : PostRequest) (posts : List Post)
    (hc : req.content ≠ "") (hi : req.image = "") :
    createPost now ts req posts =
      (.success 201
        { id := now, author := if req.author = "" then "Anonymous" else req.author,
          content := req.content, image := none, timestamp := ts, replies := [] },
       posts ++
        [{ id := now, author := if req.author = "" then "Anonymous" else req.author,
           content := req.content, image := none, timestamp := ts, replies := [] }]) := by
  unfold createPost
  rw [if_neg hc]
  simp [hi]

/-- Claim C9 witness. -/
theorem c9_image_default_witness :
    createPost 42 "T" { author := "bob", content := "hello", image := "" } [] =
      (.success 201 { id := 42, author := "bob", content := "hello", image := none,
                      timestamp := "T", replies := [] },
       [{ id := 42, author := "bob", content := "hello", image := none,
          timestamp := "T", replies := [] }]) := by
  have h := c9_image_default 42 "T" { author := "bob", content := "hello", image := "" } []
      (by decide) rfl
  rw [h]
  decide

/-- Claim C10 counterexample: at an admin update of the stored patch with id 2
supplying none of version, date, text, the operation does not return 200 with
the unchanged document as the claim asserts; the store rejects the empty `$set`
and the handler answers 500 "Server error updating patch". -/
theorem c10_counterexample :
    updatePatch { version := "", date := "", text := "", isAdmin := true } 2
        [{ id := 2, version := "3.1", date := "e", text := "u" }] ≠
      (.success 200 { id := 2, version := "3.1", date := "e", text := "u" },
       [{ id := 2, version := "3.1", date := "e", text := "u" }]) := by
  decide

/-- Claim C10 (amended: the outcome is the 500 error, not a 200 no-op): a patch
update with a truthy admin flag, a matching id, and none of version/date/text
supplied as truthy builds an empty `$set`, which the store rejects
(FailedToParse); the operation returns 500 "Server error updating patch" and
leaves the store unchanged. -/
theorem c10_empty_update_500 (req : PatchUpdateRequest) (pid : Nat) (patches : List Patch)
    (hAdmin : req.isAdmin = true) (hv : req.version = "") (hd : req.date = "")
    (ht : req.text = "") :
    ∀ p, patches.find? (fun q => q.id == pid) = some p →
      updatePatch req pid patches =
        (.failure 500 "Server error updating patch", patches) := by
  intro p hfind
  unfold updatePatch
  rw [if_neg (by simp [hAdmin]), if_pos ⟨hv, hd, ht⟩]

/-- Claim C10 amended-theorem witness: the all-empty admin update of the stored
patch with id 2 returns the 500 error and leaves the store unchanged. -/
theorem c10_empty_update_500_witness :
    updatePatch { version := "", date := "", text := "", isAdmin := true } 2
        [{ id := 2, version := "3.1", date := "e", text := "u" }] =
      (.failure 500 "Server error updating patch",
       [{ id := 2, version := "3.1", date := "e", text := "u" }]) :=
  c10_empty_update_500 { version := "", date := "", text := "", isAdmin := true } 2
      [{ id := 2, version := "3.1", date := "e", text := "u" }] rfl rfl rfl rfl
      { id := 2, version := "3.1", date := "e", text := "u" } (by decide)
